import Mathlib

/-!
Verification of the streaming session engine of the live-ui front-end.

The definitions below are a shallow embedding of the `sendMessage` exchange
loop of the chat page component and of the component state it manipulates.
JavaScript runtime primitives used by that code (`JSON.parse`,
`String.prototype.split`, `String.prototype.startsWith`, `String.prototype.slice`,
`String.prototype.trim`, truthiness, `Date.now`) are modelled explicitly; the
`Date.now` clock is passed in as explicit arguments, and the network is
modelled as the outcome of the fetch call together with the list of decoded
text chunks delivered by the body reader.
-/

namespace LiveUI

/-- A JavaScript runtime value as it can appear in (a field of) a parsed
protocol record.  The protocol's records are flat JSON objects whose fields
are strings and booleans; `undefined` models JavaScript `undefined`, the result
of reading an absent field. -/
inductive Atom where
  | str (s : String)
  | bool (b : Bool)
  | num (n : Int)
  | null
  | undefined
deriving DecidableEq, Repr

/-- JavaScript truthiness of an `Atom` ("" , false, 0, null, undefined are
falsy). -/
def Atom.truthy : Atom → Bool
  | .str s => s != ""
  | .bool b => b
  | .num n => n != 0
  | .null => false
  | .undefined => false

/-- A parsed protocol record: a flat JSON object.  (`JSON.parse` can also
return non-object values and nested objects; such records never match any
of the `data.type` comparisons of the event loop and are therefore ignored,
exactly as a record our parser rejects is — see `parseJson`.) -/
def JsObj : Type := List (String × Atom)

instance : DecidableEq JsObj := by
  unfold JsObj
  infer_instance

/-- Reading object field `k` in JavaScript: the value of the last binding of
`k` (JSON duplicate keys: last one wins), `undefined` when absent. -/
def getField (o : JsObj) (k : String) : Atom :=
  match o.reverse.find? (fun p => p.1 == k) with
  | some p => p.2
  | none => .undefined

/-! ### A model of `JSON.parse` for the protocol's records

The records on the wire are flat objects of string/boolean fields.  The
parser below accepts exactly flat JSON objects with string, boolean, null
and integer fields; any other input (truncated text, non-object top level,
nested values, trailing garbage) is rejected.  A rejected line behaves in
the event loop exactly like a record whose `type` is unrecognized: it is
skipped, so this restriction is observationally faithful. -/

/-- JSON insignificant whitespace (also the whitespace stripped by
`String.prototype.trim` on the inputs that occur here). -/
def isWs (c : Char) : Bool :=
  c == ' ' || c == '\t' || c == '\n' || c == '\r'

/-- Drop leading whitespace. -/
def skipWs : List Char → List Char
  | [] => []
  | c :: cs => if isWs c then skipWs cs else c :: cs

/-- JSON string escapes (without the `\u` form, which the protocol does not
use; an occurrence makes the record rejected, hence skipped). -/
def unescape (c : Char) : Option Char :=
  if c = '"' then some '"'
  else if c = '\\' then some '\\'
  else if c = '/' then some '/'
  else if c = 'n' then some '\n'
  else if c = 't' then some '\t'
  else if c = 'r' then some '\r'
  else if c = 'b' then some (Char.ofNat 8)
  else if c = 'f' then some (Char.ofNat 12)
  else none

/-- Parse the body of a JSON string literal (after the opening quote),
returning the decoded characters and the rest of the input. -/
def parseStringBody : List Char → Option (List Char × List Char)
  | [] => none
  | '"' :: cs => some ([], cs)
  | '\\' :: e :: cs =>
    match unescape e, parseStringBody cs with
    | some c, some (s, rest) => some (c :: s, rest)
    | _, _ => none
  | c :: cs =>
    match parseStringBody cs with
    | some (s, rest) => some (c :: s, rest)
    | none => none

/-- Decimal digits to a natural number. -/
def digitsToNat (l : List Char) : Nat :=
  l.foldl (fun a c => a * 10 + (c.toNat - 48)) 0

/-- Parse a JSON integer (fraction/exponent forms are rejected — the
protocol has no numeric fields at all). -/
def parseNum (cs : List Char) : Option (Atom × List Char) :=
  let neg : Bool := match cs with | '-' :: _ => true | _ => false
  let cs1 := match cs with | '-' :: r => r | _ => cs
  let ds := cs1.takeWhile (·.isDigit)
  let rest := cs1.dropWhile (·.isDigit)
  if ds = [] then none
  else
    match rest with
    | '.' :: _ => none
    | 'e' :: _ => none
    | 'E' :: _ => none
    | _ =>
      let n : Int := Int.ofNat (digitsToNat ds)
      some (.num (if neg then -n else n), rest)

/-- Parse one JSON atom value. -/
def parseAtomValue (cs : List Char) : Option (Atom × List Char) :=
  match skipWs cs with
  | '"' :: cs1 =>
    match parseStringBody cs1 with
    | some (s, rest) => some (.str (String.mk s), rest)
    | none => none
  | 't' :: 'r' :: 'u' :: 'e' :: rest => some (.bool true, rest)
  | 'f' :: 'a' :: 'l' :: 's' :: 'e' :: rest => some (.bool false, rest)
  | 'n' :: 'u' :: 'l' :: 'l' :: rest => some (.null, rest)
  | cs1 => parseNum cs1

/-- Parse the members of a JSON object (after the opening brace, object
known to be nonempty), with fuel for termination. -/
def parseMembersAux : Nat → List Char → Option (JsObj × List Char)
  | 0, _ => none
  | fuel + 1, cs =>
    match skipWs cs with
    | '"' :: cs1 =>
      match parseStringBody cs1 with
      | none => none
      | some (k, cs2) =>
        match skipWs cs2 with
        | ':' :: cs3 =>
          match parseAtomValue cs3 with
          | none => none
          | some (v, cs4) =>
            match skipWs cs4 with
            | ',' :: cs5 =>
              match parseMembersAux fuel cs5 with
              | some (o, r) => some ((String.mk k, v) :: o, r)
              | none => none
            | '}' :: cs5 => some ([(String.mk k, v)], cs5)
            | _ => none
        | _ => none
    | _ => none

/-- Model of `JSON.parse(s)` restricted to the protocol's record shape
(flat object of atoms); on anything else it returns `none`, which the event
loop treats exactly as it treats an unrecognized record. -/
def parseJson (s : String) : Option JsObj :=
  match skipWs s.data with
  | '{' :: cs1 =>
    match skipWs cs1 with
    | '}' :: rest => if skipWs rest = [] then some [] else none
    | _ =>
      match parseMembersAux (cs1.length + 1) cs1 with
      | some (o, rest) => if skipWs rest = [] then some o else none
      | none => none
  | _ => none

/-! ### JavaScript string primitives used by the event loop -/

/-- Split a character list at every occurrence of `sep` (model of
`String.prototype.split` with a single-character separator). -/
def splitOnChar (sep : Char) : List Char → List (List Char)
  | [] => [[]]
  | c :: cs =>
    match splitOnChar sep cs with
    | [] => [[]]
    | h :: t => if c = sep then [] :: h :: t else (c :: h) :: t

/-- `chunk.split(newline)` of the event loop. -/
def jsSplitNewline (s : String) : List String :=
  (splitOnChar '\n' s.data).map String.mk

/-- `line.startsWith(dataPrefix)` for the 6-character SSE marker. -/
def isDataLine (s : String) : Bool :=
  match s.data with
  | 'd' :: 'a' :: 't' :: 'a' :: ':' :: ' ' :: _ => true
  | _ => false

/-- `line.slice(n)` (the lines are ASCII, so code-unit indexing and
character indexing agree). -/
def jsSlice (n : Nat) (s : String) : String :=
  String.mk (s.data.drop n)

/-- `s.trim()`. -/
def jsTrim (s : String) : String :=
  String.mk (((s.data.dropWhile isWs).reverse.dropWhile isWs).reverse)

/-! ### Data model: messages and component state -/

/-- `Message.role`. -/
inductive Role where
  | user
  | assistant
deriving DecidableEq, Repr

/-- A chat `Message`.  `content` is an `Atom` because the assistant branches
assign raw parsed-record fields to it; `is_generated_ui` is an optional
field (`none` models its absence from the object).  The `timestamp` field
(`new Date().toISOString()`) carries the clock value; no property depends
on its format. -/
structure Message where
  id : String
  role : Role
  content : Atom
  timestamp : String
  is_generated_ui : Option Atom
deriving DecidableEq, Repr

/-- The component state touched by `sendMessage`: the `useState` hooks
`messages`, `input`, `loading`, `conversationId`, `generatedHtml`,
`showPreview`, `streamingText`, `isStreaming`.  (`fullScreenPreview` and
`viewMode` are pure presentation state never touched by the exchange loop
and are omitted.)  `conversationId`, `generatedHtml` and `streamingText`
are `Atom`s because the event branches store raw parsed-record fields in
them. -/
structure Session where
  messages : List Message
  input : String
  loading : Bool
  conversationId : Atom
  generatedHtml : Atom
  showPreview : Bool
  streamingText : Atom
  isStreaming : Bool
deriving DecidableEq, Repr

/-- The initial hook values. -/
def initSession : Session :=
  { messages := []
    input := ""
    loading := false
    conversationId := .str ""
    generatedHtml := .str ""
    showPreview := false
    streamingText := .str ""
    isStreaming := false }

/-- The user-visible error notice appended on any transport failure. -/
def errorNotice : String :=
  "Sorry, I encountered an error. Please make sure the backend server is running on port 8000."

/-- The user message appended at the start of a send (`id` and `timestamp`
both come from the clock at that point). -/
def mkUserMessage (t : Nat) (content : String) : Message :=
  { id := toString t
    role := .user
    content := .str content
    timestamp := toString t
    is_generated_ui := none }

/-- The streaming placeholder assistant message. -/
def mkPlaceholder (t : Nat) : Message :=
  { id := toString t
    role := .assistant
    content := .str ""
    timestamp := toString t
    is_generated_ui := some (.bool false) }

/-- The assistant message carrying the error notice (it has no
`is_generated_ui` field). -/
def mkErrorMessage (t : Nat) : Message :=
  { id := toString t
    role := .assistant
    content := .str errorNotice
    timestamp := toString t
    is_generated_ui := none }

/-- The JSON body of the streaming POST request:
`{message: currentInput, conversation_id: conversationId || undefined,
history: messages}`, built from the state at the time of the call (before
the user message append is visible). -/
structure RequestBody where
  message : String
  conversation_id : Atom
  history : List Message
deriving DecidableEq, Repr

/-- The request body `sendMessage` submits from state `st`. -/
def requestBody (st : Session) : RequestBody :=
  { message := st.input
    conversation_id := if st.conversationId.truthy then st.conversationId else .undefined
    history := st.messages }

/-- Outcome of the network interaction of one exchange: the `fetch` call
throws, or resolves with `response.ok` false, or with no readable body, or
delivers a list of decoded text chunks after which the reader either
signals a clean end-of-stream (`readError = false`) or throws
(`readError = true`). -/
inductive FetchResult where
  | fetchFail
  | notOk
  | noBody
  | ok (chunks : List String) (readError : Bool)
deriving DecidableEq, Repr

/-! ### The event loop -/

/-- One successfully parsed `data:` record applied to the state: the
`if/else if` chain on `data.type`.  The second component is `true` exactly
when the `complete` branch ran, i.e. when the loop over the current chunk's
lines executes `break`.  (The branch-local variables `accumulatedText`,
`currentHtml`, `finalConversationId` either mirror a hook value or are dead
after the loop and are not part of the state.) -/
def processData (smid : String) (st : Session) (data : JsObj) : Session × Bool :=
  if getField data "type" = .str "text_chunk" then
    let accumulatedText := getField data "accumulated_text"
    let st := { st with streamingText := accumulatedText }
    let st := { st with
      messages := st.messages.map fun msg =>
        if msg.id = smid then { msg with content := accumulatedText } else msg }
    (st, false)
  else if getField data "type" = .str "html_chunk"
      ∨ getField data "type" = .str "html_complete" then
    let currentHtml := getField data "html_content"
    let st := { st with generatedHtml := currentHtml, showPreview := true }
    let st := { st with
      messages := st.messages.map fun msg =>
        if msg.id = smid then { msg with is_generated_ui := some (.bool true) } else msg }
    (st, false)
  else if getField data "type" = .str "complete" then
    let st := { st with
      conversationId := getField data "conversation_id"
      streamingText := .str "" }
    let st :=
      if (getField data "html_content").truthy then
        { st with generatedHtml := getField data "html_content", showPreview := true }
      else st
    let st := { st with
      messages := st.messages.map fun msg =>
        if msg.id = smid then
          { msg with
            content := getField data "final_text"
            is_generated_ui := some (getField data "is_ui") }
        else msg }
    (st, true)
  else (st, false)

/-- One line of a chunk: only lines starting with the `data: ` marker are
considered; `JSON.parse` failure is caught and the line skipped. -/
def processLine (smid : String) (st : Session) (line : String) : Session × Bool :=
  if isDataLine line then
    match parseJson (jsSlice 6 line) with
    | some data => processData smid st data
    | none => (st, false)
  else (st, false)

/-- The `for (const line of lines)` loop: `break` (second component `true`)
abandons the remaining lines of this chunk only. -/
def processLines (smid : String) (st : Session) : List String → Session
  | [] => st
  | line :: rest =>
    match processLine smid st line with
    | (st', true) => st'
    | (st', false) => processLines smid st' rest

/-- The `while (true)` reader loop: every delivered chunk is split at
newlines and its lines processed; the loop ends only when the reader
reports `done` (the inner `break` does not leave this loop). -/
def processChunks (smid : String) (st : Session) : List String → Session
  | [] => st
  | chunk :: rest =>
    processChunks smid (processLines smid st (jsSplitNewline chunk)) rest

/-- The whole `sendMessage` call.  `tUser`, `tStream`, `tErr` are the
`Date.now()` readings at the three message-creation points (user message,
streaming placeholder, error message). -/
def sendMessage (st : Session) (fr : FetchResult) (tUser tStream tErr : Nat) : Session :=
  if jsTrim st.input = "" ∨ st.loading = true ∨ st.isStreaming = true then st
  else
    let st1 := { st with
      messages := st.messages ++ [mkUserMessage tUser st.input]
      input := ""
      loading := true
      isStreaming := true
      streamingText := .str "" }
    let st2 :=
      match fr with
      | .fetchFail => { st1 with messages := st1.messages ++ [mkErrorMessage tErr] }
      | .notOk => { st1 with messages := st1.messages ++ [mkErrorMessage tErr] }
      | .noBody => { st1 with messages := st1.messages ++ [mkErrorMessage tErr] }
      | .ok chunks readError =>
        let smid := toString tStream
        let stA := { st1 with messages := st1.messages ++ [mkPlaceholder tStream] }
        let stB := processChunks smid stA chunks
        if readError then { stB with messages := stB.messages ++ [mkErrorMessage tErr] }
        else stB
    { st2 with loading := false, isStreaming := false, streamingText := .str "" }

/-- Modelled from the spec: the repository has no explicit `ArtifactStore`
component with a version counter (the code keeps only the `generatedHtml`
hook); §4.4 of the design describes `set(payload)` as "increments version,
stores payload", which this structure realises. -/
structure ArtifactStore where
  payload : Option String
  version : Nat
deriving DecidableEq, Repr

/-- Modelled from the spec: `ArtifactStore.set`. -/
def ArtifactStore.set (a : ArtifactStore) (p : String) : ArtifactStore :=
  { payload := some p, version := a.version + 1 }

/-! ### Derived predicates used in the statements -/

/-- Whether a parsed record, when applied, writes the artifact
(`generatedHtml`): an `html_chunk`/`html_complete` record, or a `complete`
record with a truthy `html_content`. -/
def dataSetsArtifact (d : JsObj) : Bool :=
  decide (getField d "type" = Atom.str "html_chunk"
      ∨ getField d "type" = Atom.str "html_complete")
  || (decide (getField d "type" = Atom.str "complete")
      && (getField d "html_content").truthy)

/-- Whether processing one line can write the artifact. -/
def lineSetsArtifact (line : String) : Bool :=
  if isDataLine line then
    match parseJson (jsSlice 6 line) with
    | some d => dataSetsArtifact d
    | none => false
  else false

/-- Whether processing one chunk can write the artifact. -/
def chunkSetsArtifact (c : String) : Bool :=
  (jsSplitNewline c).any lineSetsArtifact

/-- Whether the exchange's network interaction fails somewhere (transport
error). -/
def fetchFailed : FetchResult → Bool
  | .fetchFail => true
  | .notOk => true
  | .noBody => true
  | .ok _ readError => readError

/-- The chunks actually delivered before the outcome. -/
def deliveredChunks : FetchResult → List String
  | .ok chunks _ => chunks
  | _ => []

/-- The state right after the user message and the streaming placeholder
have been appended and the loading flags raised (the state in which the
reader loop starts); provably the intermediate state of `sendMessage`. -/
def exchangeStart (st : Session) (tU tP : Nat) : Session :=
  { st with
    messages := (st.messages ++ [mkUserMessage tU st.input]) ++ [mkPlaceholder tP]
    input := ""
    loading := true
    isStreaming := true
    streamingText := .str "" }

/-- An `ArtifactChunk` event: the parsed record of an `html_chunk` line
carrying payload `p`. -/
def htmlChunkRecord (p : String) : JsObj :=
  [("type", .str "html_chunk"), ("html_content", .str p)]

/-! ### Concrete streams used by the scenario theorems -/

/-- A session in which the user has typed `hello` and nothing has happened
yet. -/
def chatStart : Session :=
  { initSession with input := "hello" }

/-- A session with an exchange in flight (`loading` raised). -/
def busySession : Session :=
  { initSession with input := "hello", loading := true }

/-- C7 scenario, chunk 1: the `text_chunk` record. -/
def c7chunk1 : String :=
  "data: \x7b\"type\":\"text_chunk\",\"accumulated_text\":\"Sure, here is a form\",\"conversation_id\":\"c1\"\x7d\n"

/-- C7 scenario, chunk 2: the `html_chunk` record. -/
def c7chunk2 : String :=
  "data: \x7b\"type\":\"html_chunk\",\"html_content\":\"<form></form>\"\x7d\n"

/-- C7 scenario, chunk 3: the `complete` record. -/
def c7chunk3 : String :=
  "data: \x7b\"type\":\"complete\",\"conversation_id\":\"c1\",\"final_text\":\"Sure, here is a form\",\"is_ui\":true,\"html_content\":\"<form></form>\"\x7d\n"

/-- C7 scenario: the state after the exchange. -/
def c7result : Session :=
  sendMessage { initSession with input := "Create a login form" }
    (.ok [c7chunk1, c7chunk2, c7chunk3] false) 1 2 3

/-- A complete, well-formed response: one `complete` record line. -/
def c1whole : String :=
  "data: \x7b\"type\":\"complete\",\"conversation_id\":\"conv-1\",\"final_text\":\"hi there\",\"is_ui\":false\x7d\n"

/-- The same bytes, first 30 characters (cuts the record mid-payload). -/
def c1part1 : String := String.mk (c1whole.data.take 30)

/-- The same bytes, remaining characters. -/
def c1part2 : String := String.mk (c1whole.data.drop 30)

/-- A chunk holding a `complete` record. -/
def c2chunkA : String :=
  "data: \x7b\"type\":\"complete\",\"conversation_id\":\"cA\",\"final_text\":\"all done\",\"is_ui\":false\x7d\n"

/-- A later chunk holding a `text_chunk` record. -/
def c2chunkB : String :=
  "data: \x7b\"type\":\"text_chunk\",\"accumulated_text\":\"late text\",\"conversation_id\":\"cA\"\x7d\n"

/-- A chunk holding a `complete` record assigning conversation id
`first-id`. -/
def c3chunkA : String :=
  "data: \x7b\"type\":\"complete\",\"conversation_id\":\"first-id\",\"final_text\":\"one\",\"is_ui\":false\x7d\n"

/-- A later chunk holding a `complete` record carrying a different
conversation id. -/
def c3chunkB : String :=
  "data: \x7b\"type\":\"complete\",\"conversation_id\":\"second-id\",\"final_text\":\"two\",\"is_ui\":false\x7d\n"

/-- A `text_chunk` chunk used to exhibit the id-collision behaviour. -/
def c4chunk : String :=
  "data: \x7b\"type\":\"text_chunk\",\"accumulated_text\":\"overwrites both\",\"conversation_id\":\"cX\"\x7d\n"

/-- A `text_chunk` chunk carrying no artifact content. -/
def c6chunk : String :=
  "data: \x7b\"type\":\"text_chunk\",\"accumulated_text\":\"partial answer\",\"conversation_id\":\"c6\"\x7d\n"

/-- A framed record line whose payload is not valid JSON. -/
def c9bad : String := "data: \x7b\"type\": oops"

/-- A well-formed `text_chunk` record line. -/
def c9good : String :=
  "data: \x7b\"type\":\"text_chunk\",\"accumulated_text\":\"ok line\",\"conversation_id\":\"c9\"\x7d"

/-- A mid-exchange state (user message and placeholder already appended). -/
def c9state : Session :=
  { initSession with messages := [mkUserMessage 1 "hi", mkPlaceholder 2] }

/-- A `text_chunk` chunk delivered before a read error. -/
def c10chunk : String :=
  "data: \x7b\"type\":\"text_chunk\",\"accumulated_text\":\"partial\",\"conversation_id\":\"cT\"\x7d\n"

/-- A parsed `complete` record carrying a fresh conversation id. -/
def c3record : JsObj :=
  [("type", .str "complete"), ("conversation_id", .str "third-id"),
   ("final_text", .str "done"), ("is_ui", .bool false)]

/-- A session that already holds a non-empty conversation id. -/
def c3sess : Session :=
  { initSession with conversationId := .str "first-id" }

/-! ### Theorems -/

set_option maxRecDepth 100000

/-- Mapping an id-preserving transformation over the transcript leaves the
id sequence unchanged. -/
theorem map_msgs_id (l : List Message) (f : Message → Message)
    (hf : ∀ m, (f m).id = m.id) :
    ((l.map f).map fun m => m.id) = l.map fun m => m.id := by
  induction l with
  | nil => rfl
  | cons a l ih => simp [hf, ih]

/-- Applying one parsed record never changes the transcript's id sequence
(all three branches only `map` an id-preserving update). -/
theorem processData_map_id (smid : String) (st : Session) (d : JsObj) :
    (((processData smid st d).1).messages.map fun m => m.id)
      = st.messages.map fun m => m.id := by
  unfold processData
  split_ifs <;>
    first
      | rfl
      | (apply map_msgs_id; intro m; by_cases hm : m.id = smid <;> simp [hm])

/-- Processing one line never changes the transcript's id sequence. -/
theorem processLine_map_id (smid : String) (st : Session) (line : String) :
    (((processLine smid st line).1).messages.map fun m => m.id)
      = st.messages.map fun m => m.id := by
  unfold processLine
  split
  · cases hp : parseJson (jsSlice 6 line) with
    | none => simp [hp]
    | some d => simp [hp, processData_map_id]
  · rfl

/-- Processing the lines of a chunk never changes the transcript's id
sequence. -/
theorem processLines_map_id (smid : String) (ls : List String) :
    ∀ st : Session, ((processLines smid st ls).messages.map fun m => m.id)
      = st.messages.map fun m => m.id := by
  induction ls with
  | nil => intro st; rfl
  | cons line rest ih =>
    intro st
    have hid := processLine_map_id smid st line
    unfold processLines
    cases hpl : processLine smid st line with
    | mk st' b =>
      rw [hpl] at hid
      cases b
      · exact (ih st').trans hid
      · exact hid

/-- The reader loop never changes the transcript's id sequence. -/
theorem processChunks_map_id (smid : String) (cs : List String) :
    ∀ st : Session, ((processChunks smid st cs).messages.map fun m => m.id)
      = st.messages.map fun m => m.id := by
  induction cs with
  | nil => intro st; rfl
  | cons c rest ih =>
    intro st
    unfold processChunks
    exact (ih _).trans (processLines_map_id smid _ st)

/-- A record that is not an artifact event leaves `generatedHtml`
unchanged. -/
theorem processData_html (smid : String) (st : Session) (d : JsObj)
    (h : dataSetsArtifact d = false) :
    ((processData smid st d).1).generatedHtml = st.generatedHtml := by
  unfold dataSetsArtifact at h
  simp only [Bool.or_eq_false_iff, Bool.and_eq_false_iff, decide_eq_false_iff_not,
    not_or] at h
  unfold processData
  split_ifs <;> simp_all

/-- A line that is not an artifact event leaves `generatedHtml`
unchanged. -/
theorem processLine_html (smid : String) (st : Session) (line : String)
    (h : lineSetsArtifact line = false) :
    ((processLine smid st line).1).generatedHtml = st.generatedHtml := by
  unfold lineSetsArtifact at h
  unfold processLine
  split
  · rename_i hd
    rw [if_pos hd] at h
    cases hp : parseJson (jsSlice 6 line) with
    | none => simp [hp]
    | some d =>
      rw [hp] at h
      simp [hp, processData_html _ _ _ h]
  · rfl

/-- Lines free of artifact events leave `generatedHtml` unchanged. -/
theorem processLines_html (smid : String) (ls : List String) :
    ∀ st : Session, (ls.all fun l => !lineSetsArtifact l) = true →
      (processLines smid st ls).generatedHtml = st.generatedHtml := by
  induction ls with
  | nil => intro st _; rfl
  | cons line rest ih =>
    intro st h
    simp only [List.all_cons, Bool.and_eq_true, Bool.not_eq_true'] at h
    obtain ⟨h1, h2⟩ := h
    have hl := processLine_html smid st line h1
    unfold processLines
    cases hpl : processLine smid st line with
    | mk st' b =>
      rw [hpl] at hl
      cases b
      · exact (ih st' (by simp [List.all_eq_true, Bool.not_eq_true'] at h2 ⊢; exact h2)).trans hl
      · exact hl

/-- Chunks free of artifact events leave `generatedHtml` unchanged. -/
theorem processChunks_html (smid : String) (cs : List String) :
    ∀ st : Session, (cs.all fun c => !chunkSetsArtifact c) = true →
      (processChunks smid st cs).generatedHtml = st.generatedHtml := by
  induction cs with
  | nil => intro st _; rfl
  | cons c rest ih =>
    intro st h
    simp only [List.all_cons, Bool.and_eq_true, Bool.not_eq_true'] at h
    obtain ⟨h1, h2⟩ := h
    have hlines : ((jsSplitNewline c).all fun l => !lineSetsArtifact l) = true := by
      unfold chunkSetsArtifact at h1
      rw [List.all_eq_true]
      intro x hx
      simp only [Bool.not_eq_true']
      cases hlx : lineSetsArtifact x with
      | false => rfl
      | true => exact absurd h1 (by simp [List.any_eq_true]; exact ⟨x, hx, hlx⟩)
    unfold processChunks
    exact (ih _ h2).trans (processLines_html smid _ st hlines)

/-- The guard of `sendMessage` is down when the input is non-blank and no
exchange is in flight. -/
theorem sendMessage_guard_false {st : Session}
    (hIn : jsTrim st.input ≠ "") (hL : st.loading = false) (hS : st.isStreaming = false) :
    ¬(jsTrim st.input = "" ∨ st.loading = true ∨ st.isStreaming = true) := by
  simp [hIn, hL, hS]

/-- Shape of the transcript after an exchange whose stream was opened:
whatever the event loop made of the post-append state, with the error
notice concatenated when the reader threw. -/
theorem sendMessage_ok_messages (st : Session) (chunks : List String) (re : Bool)
    (tU tP tE : Nat) (hIn : jsTrim st.input ≠ "") (hL : st.loading = false)
    (hS : st.isStreaming = false) :
    (sendMessage st (.ok chunks re) tU tP tE).messages
      = (processChunks (toString tP) (exchangeStart st tU tP) chunks).messages
        ++ (if re then [mkErrorMessage tE] else []) := by
  unfold sendMessage
  rw [if_neg (sendMessage_guard_false hIn hL hS)]
  cases re <;> simp [exchangeStart]

/-- The artifact after an exchange whose stream was opened is whatever the
event loop left in it. -/
theorem sendMessage_ok_html (st : Session) (chunks : List String) (re : Bool)
    (tU tP tE : Nat) (hIn : jsTrim st.input ≠ "") (hL : st.loading = false)
    (hS : st.isStreaming = false) :
    (sendMessage st (.ok chunks re) tU tP tE).generatedHtml
      = (processChunks (toString tP) (exchangeStart st tU tP) chunks).generatedHtml := by
  unfold sendMessage
  rw [if_neg (sendMessage_guard_false hIn hL hS)]
  cases re <;> rfl

/-- Shape of the transcript after an exchange that failed before the
stream was opened. -/
theorem sendMessage_fail_messages (st : Session) (fr : FetchResult) (tU tP tE : Nat)
    (hIn : jsTrim st.input ≠ "") (hL : st.loading = false) (hS : st.isStreaming = false)
    (hfr : fr = .fetchFail ∨ fr = .notOk ∨ fr = .noBody) :
    (sendMessage st fr tU tP tE).messages
      = st.messages ++ [mkUserMessage tU st.input] ++ [mkErrorMessage tE] := by
  unfold sendMessage
  rw [if_neg (sendMessage_guard_false hIn hL hS)]
  rcases hfr with h | h | h <;> subst h <;> simp

/-- Ids of the transcript after an exchange whose stream was opened. -/
theorem sendMessage_ok_ids (st : Session) (chunks : List String) (re : Bool)
    (tU tP tE : Nat) (hIn : jsTrim st.input ≠ "") (hL : st.loading = false)
    (hS : st.isStreaming = false) :
    ((sendMessage st (.ok chunks re) tU tP tE).messages.map fun m => m.id)
      = (st.messages.map fun m => m.id) ++ [toString tU, toString tP]
        ++ (if re then [toString tE] else []) := by
  rw [sendMessage_ok_messages st chunks re tU tP tE hIn hL hS, List.map_append,
    processChunks_map_id]
  cases re <;> simp [exchangeStart, mkUserMessage, mkPlaceholder, mkErrorMessage]

/-- Appending two fresh, distinct elements preserves `Nodup`. -/
theorem nodup_append_pair {l : List String} {a b : String}
    (h : l.Nodup) (ha : a ∉ l) (hb : b ∉ l) (hab : a ≠ b) :
    (l ++ [a, b]).Nodup := by
  rw [List.nodup_append]
  refine ⟨h, by simp [hab], ?_⟩
  rw [List.disjoint_left]
  intro x hx hmem
  rcases List.mem_cons.mp hmem with rfl | hmem
  · exact ha hx
  · rcases List.mem_cons.mp hmem with rfl | hmem
    · exact hb hx
    · simp at hmem

/-- Appending three fresh, pairwise distinct elements preserves `Nodup`. -/
theorem nodup_append_triple {l : List String} {a b c : String}
    (h : l.Nodup) (ha : a ∉ l) (hb : b ∉ l) (hc : c ∉ l)
    (hab : a ≠ b) (hac : a ≠ c) (hbc : b ≠ c) :
    (l ++ [a, b, c]).Nodup := by
  rw [List.nodup_append]
  refine ⟨h, by simp [hab, hac, hbc], ?_⟩
  rw [List.disjoint_left]
  intro x hx hmem
  rcases List.mem_cons.mp hmem with rfl | hmem
  · exact ha hx
  · rcases List.mem_cons.mp hmem with rfl | hmem
    · exact hb hx
    · rcases List.mem_cons.mp hmem with rfl | hmem
      · exact hc hx
      · simp at hmem

/-- Counting messages with a given id equals counting that id in the id
sequence. -/
theorem countP_id_map (t : String) (l : List Message) :
    (l.countP fun m => m.id == t) = (l.map fun m => m.id).countP (fun s => s == t) := by
  induction l with
  | nil => rfl
  | cons a l ih => simp [List.countP_cons, ih]

/-- Claim C1: chunk-boundary invariance fails on the code.  The very same
response bytes (`c1part1 ++ c1part2 = c1whole`) processed as one chunk
assign the conversation id and finalize the placeholder, while processed as
two chunks split mid-record they are dropped entirely: each chunk is split
at newlines and parsed on its own, no trailing partial line is buffered, so
the truncated first half fails to parse and the second half does not carry
the `data: ` marker. -/
theorem C1_split_changes_final_state :
    c1part1 ++ c1part2 = c1whole
    ∧ (sendMessage chatStart (.ok [c1whole] false) 1 2 3).conversationId = .str "conv-1"
    ∧ (sendMessage chatStart (.ok [c1part1, c1part2] false) 1 2 3).conversationId = .str ""
    ∧ (sendMessage chatStart (.ok [c1part1, c1part2] false) 1 2 3).messages
        ≠ (sendMessage chatStart (.ok [c1whole] false) 1 2 3).messages := by
  decide

/-- Claim C2, counterexample: a `text_chunk` record arriving in a chunk
after the chunk holding the `complete` record is still processed and
changes the transcript (the `break` only leaves the loop over the current
chunk's lines, not the reader loop). -/
theorem C2_event_after_complete_changes_transcript :
    ((sendMessage chatStart (.ok [c2chunkA] false) 1 2 3).messages.map fun m => m.content)
      = [.str "hello", .str "all done"]
    ∧ ((sendMessage chatStart (.ok [c2chunkA, c2chunkB] false) 1 2 3).messages.map
        fun m => m.content)
      = [.str "hello", .str "late text"] := by
  decide

/-- Claim C3, counterexample: the first `complete` record assigns the
non-empty conversation id `first-id`; a later `complete` record carrying
`second-id` overwrites it (the assignment is unconditional, there is no
already-set guard). -/
theorem C3_later_complete_overwrites_conversation_id :
    (sendMessage chatStart (.ok [c3chunkA] false) 1 2 3).conversationId = .str "first-id"
    ∧ (sendMessage chatStart (.ok [c3chunkA, c3chunkB] false) 1 2 3).conversationId
        = .str "second-id" := by
  decide

/-- Claim C4, counterexample: when the two `Date.now()` readings coincide
(both 7 here), the user message and the streaming placeholder receive the
same id, and the placeholder update then transforms both messages — the
user message's content is clobbered by the `text_chunk` text. -/
theorem C4_equal_clock_collides_ids :
    ((sendMessage chatStart (.ok [c4chunk] false) 7 7 9).messages.map fun m => m.id)
      = ["7", "7"]
    ∧ ((sendMessage chatStart (.ok [c4chunk] false) 7 7 9).messages.map
        fun m => (m.role, m.content))
      = [(.user, .str "overwrites both"), (.assistant, .str "overwrites both")] := by
  decide

/-- Claim C5: when an exchange is in flight (`loading` or `isStreaming`
raised — phase not `Idle`), `sendMessage` is a no-op: the returned state is
the argument state, so nothing is appended, no exchange processed, and
transcript, artifact and conversation id are untouched. -/
theorem C5_send_rejected_unless_idle (st : Session) (fr : FetchResult) (tU tP tE : Nat)
    (h : st.loading = true ∨ st.isStreaming = true) :
    sendMessage st fr tU tP tE = st := by
  unfold sendMessage
  rcases h with h | h <;> simp [h]

/-- Witness for `C5_send_rejected_unless_idle` at a concrete busy state. -/
theorem C5_send_rejected_unless_idle_witness :
    busySession.loading = true
    ∧ sendMessage busySession (.ok [c7chunk1] false) 4 5 6 = busySession :=
  ⟨by decide,
    C5_send_rejected_unless_idle busySession (.ok [c7chunk1] false) 4 5 6 (Or.inl (by decide))⟩

/-- Claim C7: the login-form scenario.  After the exchange the transcript
holds exactly the user message and one assistant message with content
`Sure, here is a form` marked as generated UI, and the stored artifact is
`<form></form>`. -/
theorem C7_login_form_scenario :
    (c7result.messages.map fun m => (m.role, m.content, m.is_generated_ui))
      = [(.user, .str "Create a login form", none),
         (.assistant, .str "Sure, here is a form", some (.bool true))]
    ∧ c7result.generatedHtml = .str "<form></form>" := by
  decide

/-- Claim C8: applying the same `ArtifactChunk` event twice leaves the same
stored artifact payload as applying it once (on the code, the
`generatedHtml` hook), while on the spec-modelled `ArtifactStore` the
version strictly increases with each application. -/
theorem C8_artifact_idempotent_version_monotonic (smid : String) (st : Session) (p : String) :
    ((processData smid (processData smid st (htmlChunkRecord p)).1 (htmlChunkRecord p)).1).generatedHtml
      = ((processData smid st (htmlChunkRecord p)).1).generatedHtml
    ∧ ∀ (a : ArtifactStore) (q : String),
        ((a.set q).set q).payload = (a.set q).payload
        ∧ (a.set q).version < ((a.set q).set q).version := by
  constructor
  · have h1 : getField (htmlChunkRecord p) "type" = .str "html_chunk" := rfl
    simp +decide [processData, h1]
  · intro a q
    simp [ArtifactStore.set]

/-- Claim C2, amended: once a `complete` record is decoded, the remaining
lines of the *current chunk* are skipped (the loop over that chunk's lines
breaks at once), but events arriving in subsequent chunks are still
processed — processing terminates only at end-of-stream. -/
theorem C2_complete_breaks_current_chunk (smid : String) (st : Session) (line : String)
    (rest : List String) (h : (processLine smid st line).2 = true) :
    processLines smid st (line :: rest) = (processLine smid st line).1 := by
  unfold processLines
  cases hpl : processLine smid st line with
  | mk st' b =>
    rw [hpl] at h
    cases b
    · simp at h
    · rfl

/-- Witness for `C2_complete_breaks_current_chunk`: a `complete` line makes
the rest of its chunk's lines (here a `text_chunk` line) unprocessed. -/
theorem C2_complete_breaks_current_chunk_witness :
    (processLine "2" c9state (String.mk (c3chunkA.data.dropLast)) ).2 = true
    ∧ processLines "2" c9state [String.mk (c3chunkA.data.dropLast), c9good]
        = (processLine "2" c9state (String.mk (c3chunkA.data.dropLast))).1 :=
  ⟨by decide,
    C2_complete_breaks_current_chunk "2" c9state (String.mk (c3chunkA.data.dropLast))
      [c9good] (by decide)⟩

/-- Claim C3, amended: every `complete` record unconditionally overwrites
the session's conversation id with its `conversation_id` field — there is
no already-set guard, so the id is not immutable once assigned; a
subsequent send does include the currently stored conversation id in its
request body whenever that id is truthy (non-empty). -/
theorem C3_complete_always_overwrites (smid : String) (st s : Session) (data : JsObj)
    (h : getField data "type" = .str "complete")
    (hs : s.conversationId.truthy = true) :
    ((processData smid st data).1).conversationId = getField data "conversation_id"
    ∧ (requestBody s).conversation_id = s.conversationId := by
  constructor
  · unfold processData
    rw [if_neg (by simp [h]), if_neg (by simp [h]), if_pos h]
    split <;> rfl
  · simp [requestBody, hs]

/-- Witness for `C3_complete_always_overwrites` at a concrete record and a
session already holding a non-empty conversation id. -/
theorem C3_complete_always_overwrites_witness :
    ((processData "2" c9state c3record).1).conversationId = getField c3record "conversation_id"
    ∧ (requestBody c3sess).conversation_id = c3sess.conversationId :=
  C3_complete_always_overwrites "2" c9state c3sess c3record (by decide) (by decide)

/-- Claim C4, amended: message ids are the string form of the `Date.now()`
reading at creation; they are pairwise distinct only under the freshness
hypothesis that the readings taken during the exchange are pairwise
distinct as strings and differ from every id already in the transcript
(the code itself does not guarantee this, see the counterexample); under
that hypothesis the transcript's ids stay pairwise distinct over the
exchange, and the placeholder update transforms exactly one message. -/
theorem C4_fresh_clock_ids_distinct (st : Session) (fr : FetchResult)
    (chunks : List String) (re : Bool) (tU tP tE : Nat)
    (hIn : jsTrim st.input ≠ "") (hL : st.loading = false) (hS : st.isStreaming = false)
    (hnd : (st.messages.map fun m => m.id).Nodup)
    (hU : toString tU ∉ st.messages.map fun m => m.id)
    (hP : toString tP ∉ st.messages.map fun m => m.id)
    (hE : toString tE ∉ st.messages.map fun m => m.id)
    (hUP : toString tU ≠ toString tP) (hUE : toString tU ≠ toString tE)
    (hPE : toString tP ≠ toString tE) :
    ((sendMessage st fr tU tP tE).messages.map fun m => m.id).Nodup
    ∧ (sendMessage st (.ok chunks re) tU tP tE).messages.countP
        (fun m => m.id == toString tP) = 1 := by
  constructor
  · cases fr with
    | ok cs r =>
      rw [sendMessage_ok_ids st cs r tU tP tE hIn hL hS]
      cases r
      · simpa using nodup_append_pair hnd hU hP hUP
      · simpa [List.append_assoc] using nodup_append_triple hnd hU hP hE hUP hUE hPE
    | fetchFail =>
      rw [sendMessage_fail_messages st _ tU tP tE hIn hL hS (Or.inl rfl)]
      simpa [mkUserMessage, mkErrorMessage, List.append_assoc] using
        nodup_append_pair hnd hU hE hUE
    | notOk =>
      rw [sendMessage_fail_messages st _ tU tP tE hIn hL hS (Or.inr (Or.inl rfl))]
      simpa [mkUserMessage, mkErrorMessage, List.append_assoc] using
        nodup_append_pair hnd hU hE hUE
    | noBody =>
      rw [sendMessage_fail_messages st _ tU tP tE hIn hL hS (Or.inr (Or.inr rfl))]
      simpa [mkUserMessage, mkErrorMessage, List.append_assoc] using
        nodup_append_pair hnd hU hE hUE
  · rw [countP_id_map (toString tP), sendMessage_ok_ids st chunks re tU tP tE hIn hL hS]
    have h0 : (st.messages.map fun m => m.id).countP (fun s => s == toString tP) = 0 := by
      rw [List.countP_eq_zero]
      intro a ha hba
      exact hP ((beq_iff_eq.mp hba) ▸ ha)
    cases re <;>
      simp [List.countP_append, List.countP_cons, h0, hUP, hPE, Ne.symm hPE, beq_iff_eq]

/-- Witness for `C4_fresh_clock_ids_distinct` at distinct clock readings
from an empty transcript. -/
theorem C4_fresh_clock_ids_distinct_witness :
    ((sendMessage chatStart (.ok [c4chunk] false) 1 2 3).messages.map fun m => m.id).Nodup
    ∧ (sendMessage chatStart (.ok [c4chunk] false) 1 2 3).messages.countP
        (fun m => m.id == toString 2) = 1 :=
  C4_fresh_clock_ids_distinct chatStart (.ok [c4chunk] false) [c4chunk] false 1 2 3
    (by decide) (by decide) (by decide) (by decide) (by decide) (by decide) (by decide)
    (by decide) (by decide) (by decide)

/-- Claim C6: an exchange that fails with a transport error at any point
(fetch throws, response not ok, body unreadable, or the reader throws after
any number of chunks) ends with the flags lowered (phase `Idle`), the
user-visible error notice as the last — freshly appended — transcript
message, and, when none of the delivered chunks carried an artifact event,
an unchanged stored artifact.  The code contains no retry construct: the
single error append is all that happens on failure. -/
theorem C6_transport_error_surfaced (st : Session) (fr : FetchResult) (tU tP tE : Nat)
    (hIn : jsTrim st.input ≠ "") (hL : st.loading = false) (hS : st.isStreaming = false)
    (hFail : fetchFailed fr = true) :
    (sendMessage st fr tU tP tE).loading = false
    ∧ (sendMessage st fr tU tP tE).isStreaming = false
    ∧ (sendMessage st fr tU tP tE).messages.getLast? = some (mkErrorMessage tE)
    ∧ (((deliveredChunks fr).all fun c => !chunkSetsArtifact c) = true →
        (sendMessage st fr tU tP tE).generatedHtml = st.generatedHtml) := by
  have hguard := sendMessage_guard_false hIn hL hS
  refine ⟨?_, ?_, ?_, ?_⟩
  · unfold sendMessage
    rw [if_neg hguard]
  · unfold sendMessage
    rw [if_neg hguard]
  · cases fr with
    | ok cs r =>
      have hr : r = true := hFail
      subst hr
      rw [sendMessage_ok_messages st cs true tU tP tE hIn hL hS]
      simp
    | fetchFail =>
      rw [sendMessage_fail_messages st _ tU tP tE hIn hL hS (Or.inl rfl)]
      simp
    | notOk =>
      rw [sendMessage_fail_messages st _ tU tP tE hIn hL hS (Or.inr (Or.inl rfl))]
      simp
    | noBody =>
      rw [sendMessage_fail_messages st _ tU tP tE hIn hL hS (Or.inr (Or.inr rfl))]
      simp
  · intro hall
    cases fr with
    | ok cs r =>
      rw [sendMessage_ok_html st cs r tU tP tE hIn hL hS]
      exact processChunks_html (toString tP) cs (exchangeStart st tU tP) hall
    | fetchFail =>
      unfold sendMessage
      rw [if_neg hguard]
    | notOk =>
      unfold sendMessage
      rw [if_neg hguard]
    | noBody =>
      unfold sendMessage
      rw [if_neg hguard]

/-- Witness for `C6_transport_error_surfaced`: a reader error after one
delivered `text_chunk` chunk. -/
theorem C6_transport_error_surfaced_witness :
    (sendMessage chatStart (.ok [c6chunk] true) 1 2 3).loading = false
    ∧ (sendMessage chatStart (.ok [c6chunk] true) 1 2 3).isStreaming = false
    ∧ (sendMessage chatStart (.ok [c6chunk] true) 1 2 3).messages.getLast?
        = some (mkErrorMessage 3)
    ∧ (((deliveredChunks (.ok [c6chunk] true)).all fun c => !chunkSetsArtifact c) = true →
        (sendMessage chatStart (.ok [c6chunk] true) 1 2 3).generatedHtml
          = chatStart.generatedHtml) :=
  C6_transport_error_surfaced chatStart (.ok [c6chunk] true) 1 2 3
    (by decide) (by decide) (by decide) (by decide)

/-- Claim C9: a framed (`data: `-marked) record whose payload fails to
parse is skipped without aborting the exchange: processing it returns the
state unchanged with no break, and a stream containing it ends in exactly
the state of the same stream without it — every record after it is still
processed. -/
theorem C9_malformed_record_skipped (smid : String) (line : String)
    (hmark : isDataLine line = true) (hparse : parseJson (jsSlice 6 line) = none) :
    (∀ st : Session, processLine smid st line = (st, false))
    ∧ ∀ (st : Session) (pre post : List String),
        processLines smid st (pre ++ line :: post) = processLines smid st (pre ++ post) := by
  have h1 : ∀ st : Session, processLine smid st line = (st, false) := by
    intro st
    unfold processLine
    rw [if_pos hmark, hparse]
  refine ⟨h1, ?_⟩
  intro st pre post
  induction pre generalizing st with
  | nil => simp [processLines, h1 st]
  | cons l pre ih =>
    simp only [List.cons_append]
    unfold processLines
    cases hpl : processLine smid st l with
    | mk st' b =>
      cases b with
      | true => rfl
      | false => exact ih st'

/-- Witness for `C9_malformed_record_skipped`: the unparseable record
`c9bad` placed after (and before) a well-formed record changes nothing. -/
theorem C9_malformed_record_skipped_witness :
    processLine "2" c9state c9bad = (c9state, false)
    ∧ processLines "2" c9state ([c9good] ++ c9bad :: [c9good])
        = processLines "2" c9state ([c9good] ++ [c9good]) :=
  ⟨(C9_malformed_record_skipped "2" c9bad (by decide) (by decide)).1 c9state,
    (C9_malformed_record_skipped "2" c9bad (by decide) (by decide)).2 c9state [c9good] [c9good]⟩

/-- Claim C10: a reader error after the placeholder was appended leaves the
placeholder in place (same id sequence extended by exactly the user,
placeholder and error-notice ids), appends the error notice as a separate
new assistant message at the end, and hence grows the transcript by exactly
three messages; in the concrete run the placeholder still holds the partial
text the last `text_chunk` gave it. -/
theorem C10_read_error_preserves_placeholder (st : Session) (chunks : List String)
    (tU tP tE : Nat) (hIn : jsTrim st.input ≠ "") (hL : st.loading = false)
    (hS : st.isStreaming = false) :
    ((sendMessage st (.ok chunks true) tU tP tE).messages.map fun m => m.id)
      = (st.messages.map fun m => m.id) ++ [toString tU, toString tP, toString tE]
    ∧ (sendMessage st (.ok chunks true) tU tP tE).messages.length
        = st.messages.length + 3
    ∧ (sendMessage st (.ok chunks true) tU tP tE).messages.getLast?
        = some (mkErrorMessage tE)
    ∧ ((sendMessage chatStart (.ok [c10chunk] true) 1 2 3).messages.map
        fun m => (m.role, m.content))
      = [(.user, .str "hello"), (.assistant, .str "partial"),
         (.assistant, .str errorNotice)] := by
  have hids := sendMessage_ok_ids st chunks true tU tP tE hIn hL hS
  refine ⟨by simpa [List.append_assoc] using hids, ?_, ?_, by decide⟩
  · have hlen := congrArg List.length hids
    simpa using hlen
  · rw [sendMessage_ok_messages st chunks true tU tP tE hIn hL hS]
    simp

/-- Witness for `C10_read_error_preserves_placeholder` at a concrete
interrupted exchange. -/
theorem C10_read_error_preserves_placeholder_witness :
    ((sendMessage chatStart (.ok [c10chunk] true) 1 2 3).messages.map fun m => m.id)
      = (chatStart.messages.map fun m => m.id) ++ [toString 1, toString 2, toString 3]
    ∧ (sendMessage chatStart (.ok [c10chunk] true) 1 2 3).messages.length
        = chatStart.messages.length + 3
    ∧ (sendMessage chatStart (.ok [c10chunk] true) 1 2 3).messages.getLast?
        = some (mkErrorMessage 3)
    ∧ ((sendMessage chatStart (.ok [c10chunk] true) 1 2 3).messages.map
        fun m => (m.role, m.content))
      = [(.user, .str "hello"), (.assistant, .str "partial"),
         (.assistant, .str errorNotice)] :=
  C10_read_error_preserves_placeholder chatStart [c10chunk] 1 2 3
    (by decide) (by decide) (by decide)

end LiveUI



